import Mathlib

/-
Verification of the entity-revision diff classification and formatting engine
of bookbrainz-site (src/server/routes/revision.js).

The five entity change classifiers (formatAuthorChange, formatEditionChange,
formatPublisherChange, formatWorkChange, formatEditionGroupChange) and the
route handler that assembles the per-kind diff blocks are translated directly
from revision.js.  The helper formatters they call (diffFormatters/base,
diffFormatters/entity, the three set formatters) and lodash utilities live
outside the provided source tree; those are modelled from the specification
and marked as such in their doc comments.
-/

namespace BookBrainz

/-- Kind of a raw field-level change, as produced by the external diff
primitive: a field was added, removed, or modified. -/
inductive ChangeKind where
  | added
  | removed
  | modified
deriving DecidableEq, Repr

/-- A JavaScript-like value carried on the old (lhs) or new (rhs) side of a
raw change: absent (undefined), a plain scalar string, a boolean, an object
carrying a display name, a reference to a typed lookup entity whose display
name may or may not resolve, or a set-valued field given by its member
identities. -/
inductive Val where
  | absent
  | str (s : String)
  | boolean (b : Bool)
  | named (name : String)
  | typeRef (resolved : Option String)
  | setVal (members : List String)
deriving DecidableEq, Repr

/-- A raw change between a revision and its parent: a path of property-name
segments identifying the field, the change kind, and the old and new values.
Mirrors the objects consumed by the classifiers in revision.js. -/
structure RawChange where
  path : List String
  kind : ChangeKind
  lhs : Val
  rhs : Val
deriving DecidableEq, Repr

/-- A formatted, human-readable change: either a simple labelled old/new pair
or a set difference with additions and removals. -/
inductive FormattedChange where
  | simple (label : String) (kind : ChangeKind)
      (renderedOld renderedNew : Option String)
  | setDiff (label : String) (additions removals : List String)
deriving DecidableEq, Repr

/-- The value a classifier returns for one raw change.  In revision.js the
classifiers return either a formatted change object, JavaScript null, or (in
formatEditionGroupChange) an empty array; the three are distinguished here
because null and the empty array are different JavaScript values. -/
inductive ClassifyResult where
  | found (f : FormattedChange)
  | null
  | emptyList
deriving DecidableEq, Repr

/-- Modelled from the spec: formatScalarChange renders old/new as plain
scalars with no validation, pass-through (diffFormatters/base is not under
the provided source tree).  Rendering of one side of a scalar change. -/
def renderScalar : Val → Option String
  | .absent => none
  | .str s => some s
  | .boolean b => some (if b then "true" else "false")
  | .named n => some n
  | .typeRef r => r
  | .setVal _ => none

/-- Modelled from the spec: formatScalarChange(change, label) from
diffFormatters/base, which is not under the provided source tree. -/
def formatScalarChange (change : RawChange) (label : String) : FormattedChange :=
  .simple label change.kind (renderScalar change.lhs) (renderScalar change.rhs)

/-- Modelled from the spec: the boolean ended flag is rendered as Yes/No
rather than a raw boolean. -/
def renderEnded : Val → Option String
  | .boolean b => some (if b then "Yes" else "No")
  | _ => none

/-- Modelled from the spec: formatEndedChange(change) from
diffFormatters/base, a specialization of the scalar formatter for the
boolean ended flag. -/
def formatEndedChange (change : RawChange) : FormattedChange :=
  .simple "Ended" change.kind (renderEnded change.lhs) (renderEnded change.rhs)

/-- Modelled from the spec: a side of a type/enum change renders the
referenced entity's display name; an unresolvable reference renders the
placeholder Unknown rather than failing. -/
def renderType : Val → Option String
  | .absent => none
  | .typeRef r => some (r.getD "Unknown")
  | .named n => some n
  | _ => some "Unknown"

/-- Modelled from the spec: formatTypeChange(change, label) from
diffFormatters/base, which is not under the provided source tree. -/
def formatTypeChange (change : RawChange) (label : String) : FormattedChange :=
  .simple label change.kind (renderType change.lhs) (renderType change.rhs)

/-- Modelled from the spec: formatGenderChange(change) is the type-change
specialization for the gender reference field. -/
def formatGenderChange (change : RawChange) : FormattedChange :=
  formatTypeChange change "Gender"

/-- Modelled from the spec: an area value may be a bare reference (the .name
sub-path carries the name directly as a string) or an object with a name
property; both render the area's display name. -/
def renderArea : Val → Option String
  | .absent => none
  | .named n => some n
  | .str s => some s
  | _ => none

/-- Modelled from the spec: formatAreaChange(change, label) from
diffFormatters/base with default label Area, which is not under the provided
source tree. -/
def formatAreaChange (change : RawChange) (label : String := "Area") :
    FormattedChange :=
  .simple label change.kind (renderArea change.lhs) (renderArea change.rhs)

/-- Modelled from the spec: the path-matching predicate of a set formatter is
true iff the change's path root equals the set field's name. -/
def setChanged (root : String) (change : RawChange) : Bool :=
  change.path.head? = some root

/-- Member identities of a set-valued side; a missing side is the empty set. -/
def setMembers : Val → List String
  | .setVal ms => ms
  | _ => []

/-- Modelled from the spec: a set formatter's format computes the symmetric
difference between old and new member sets, by member identity, listing
members only in the new set as additions and members only in the old set as
removals, in the order they appear on the respective side. -/
def formatSetChange (label : String) (change : RawChange) : FormattedChange :=
  .setDiff label
    ((setMembers change.rhs).filter (fun m => !(setMembers change.lhs).contains m))
    ((setMembers change.lhs).filter (fun m => !(setMembers change.rhs).contains m))

namespace publisherSetFormatter

/-- Modelled from the spec: diffFormatters/publisherSet changed predicate. -/
def changed (change : RawChange) : Bool := setChanged "publisherSet" change

/-- Modelled from the spec: diffFormatters/publisherSet format. -/
def format (change : RawChange) : FormattedChange :=
  formatSetChange "Publishers" change

end publisherSetFormatter

namespace releaseEventSetFormatter

/-- Modelled from the spec: diffFormatters/releaseEventSet changed predicate. -/
def changed (change : RawChange) : Bool := setChanged "releaseEventSet" change

/-- Modelled from the spec: diffFormatters/releaseEventSet format. -/
def format (change : RawChange) : FormattedChange :=
  formatSetChange "Release Events" change

end releaseEventSetFormatter

namespace languageSetFormatter

/-- Modelled from the spec: diffFormatters/languageSet changed predicate. -/
def changed (change : RawChange) : Bool := setChanged "languageSet" change

/-- Modelled from the spec: diffFormatters/languageSet format. -/
def format (change : RawChange) : FormattedChange :=
  formatSetChange "Languages" change

end languageSetFormatter

/-- Modelled from the spec: lodash startCase restricted to the single
lowercase words it is applied to in revision.js (width, height, depth,
weight), where it capitalizes the first letter. -/
def startCase (s : String) : String := s.capitalize

/-- Translated from revision.js lines 44-76: the Author change classifier. -/
def formatAuthorChange (change : RawChange) : ClassifyResult :=
  if change.path = ["beginDate"] then
    .found (formatScalarChange change "Begin Date")
  else if change.path = ["endDate"] then
    .found (formatScalarChange change "End Date")
  else if change.path = ["gender"] then
    .found (formatGenderChange change)
  else if change.path = ["ended"] then
    .found (formatEndedChange change)
  else if change.path = ["type"] then
    .found (formatTypeChange change "Author Type")
  else if change.path = ["beginArea"] ∨ change.path = ["beginArea", "name"] then
    .found (formatAreaChange change "Begin Area")
  else if change.path = ["endArea"] ∨ change.path = ["endArea", "name"] then
    .found (formatAreaChange change "End Area")
  else
    .null

/-- Translated from revision.js lines 78-117: the Edition change classifier. -/
def formatEditionChange (change : RawChange) : ClassifyResult :=
  if change.path = ["editionGroupBbid"] then
    .found (formatScalarChange change "EditionGroup")
  else if publisherSetFormatter.changed change then
    .found (publisherSetFormatter.format change)
  else if releaseEventSetFormatter.changed change then
    .found (releaseEventSetFormatter.format change)
  else if languageSetFormatter.changed change then
    .found (languageSetFormatter.format change)
  else if change.path = ["width"] ∨ change.path = ["height"] ∨
      change.path = ["depth"] ∨ change.path = ["weight"] then
    .found (formatScalarChange change (startCase (change.path.headD "")))
  else if change.path = ["pages"] then
    .found (formatScalarChange change "Page Count")
  else if change.path = ["editionFormat"] then
    .found (formatTypeChange change "Edition Format")
  else if change.path = ["editionStatus"] then
    .found (formatTypeChange change "Edition Status")
  else
    .null

/-- Translated from revision.js lines 119-142: the Publisher change
classifier. -/
def formatPublisherChange (change : RawChange) : ClassifyResult :=
  if change.path = ["beginDate"] then
    .found (formatScalarChange change "Begin Date")
  else if change.path = ["endDate"] then
    .found (formatScalarChange change "End Date")
  else if change.path = ["ended"] then
    .found (formatEndedChange change)
  else if change.path = ["type"] then
    .found (formatTypeChange change "Publisher Type")
  else if change.path = ["area"] ∨ change.path = ["area", "name"] then
    .found (formatAreaChange change)
  else
    .null

/-- Translated from revision.js lines 144-154: the Work change classifier. -/
def formatWorkChange (change : RawChange) : ClassifyResult :=
  if languageSetFormatter.changed change then
    .found (languageSetFormatter.format change)
  else if change.path = ["type"] then
    .found (formatTypeChange change "Work Type")
  else
    .null

/-- Translated from revision.js lines 156-162: the EditionGroup change
classifier.  Note the fall-through returns an empty array, not null. -/
def formatEditionGroupChange (change : RawChange) : ClassifyResult :=
  if change.path = ["type"] then
    .found (formatTypeChange change "Edition Group Type")
  else
    .emptyList

/-- The five entity kinds versioned by revisions. -/
inductive EntityKind where
  | author
  | edition
  | editionGroup
  | publisher
  | work
deriving DecidableEq, Repr

/-- The classifier revision.js uses for each entity kind. -/
def classifierOf : EntityKind → RawChange → ClassifyResult
  | .author => formatAuthorChange
  | .edition => formatEditionChange
  | .editionGroup => formatEditionGroupChange
  | .publisher => formatPublisherChange
  | .work => formatWorkChange

/-- The recognized path roots of each entity kind's classifier, read off the
path tests of the corresponding function in revision.js. -/
def recognizedRoots : EntityKind → List String
  | .author =>
      ["beginDate", "endDate", "gender", "ended", "type", "beginArea", "endArea"]
  | .edition =>
      ["editionGroupBbid", "publisherSet", "releaseEventSet", "languageSet",
       "width", "height", "depth", "weight", "pages", "editionFormat",
       "editionStatus"]
  | .editionGroup => ["type"]
  | .publisher => ["beginDate", "endDate", "ended", "type", "area"]
  | .work => ["languageSet", "type"]

/-- Display metadata of the entity a revision row touches. -/
structure EntityMeta where
  bbid : String
deriving DecidableEq, Repr

/-- One revision row of an entity kind, after diffing against its parent:
the list of raw changes and the related entity's metadata.  Mirrors the
objects built by diffRevisionsWithParents in revision.js. -/
structure DiffRow where
  changes : List RawChange
  entity : EntityMeta
deriving DecidableEq, Repr

/-- One formatted diff block for one entity instance under one revision. -/
structure EntityDiffBlock where
  entityType : String
  entity : EntityMeta
  formattedChanges : List FormattedChange
deriving DecidableEq, Repr

/-- Modelled from the spec: entityFormatter.formatEntityDiffs from
diffFormatters/entity, which is not under the provided source tree.  Applies
the entity kind's classifier to each raw change of each row, keeps the
results that carry a formatted change in original change order, drops
null/empty results, and attaches the entity metadata; one block per row. -/
def formatEntityDiffs (diffs : List DiffRow) (entityType : String)
    (classifier : RawChange → ClassifyResult) : List EntityDiffBlock :=
  diffs.map (fun row =>
    ⟨entityType, row.entity,
      row.changes.filterMap (fun c =>
        match classifier c with
        | .found f => some f
        | _ => none)⟩)

/-- The base revision record; beyond existing, its content is only passed to
presentation, so only the id is modelled. -/
structure Revision where
  id : Nat
deriving DecidableEq, Repr

/-- How the route handler can fail: the base revision record was not found,
or one of the per-entity-kind diff resolutions rejected and its error
propagated through the join. -/
inductive RouteError where
  | notFound
  | branchFailure (message : String)
deriving DecidableEq, Repr

/-- Translated from revision.js lines 178-272 (the GET /:id handler).  The
six inputs are the already-settled outcomes of the base revision fetch and
the five per-kind diff resolutions.  Promise.join rejects with a branch's
error as soon as any branch rejects, so a branch error preempts the handler
body; when all branches resolve, a missing base revision throws NotFound;
otherwise the five blocks are concatenated in the fixed order Author,
Edition, EditionGroup, Publisher, Work written at lines 222-248. -/
def getRevisionDiff (revision : Option Revision)
    (authorDiffs editionDiffs editionGroupDiffs publisherDiffs workDiffs :
      Except String (List DiffRow)) :
    Except RouteError (List EntityDiffBlock) :=
  match authorDiffs, editionDiffs, editionGroupDiffs, publisherDiffs, workDiffs with
  | .error e, _, _, _, _ => .error (.branchFailure e)
  | _, .error e, _, _, _ => .error (.branchFailure e)
  | _, _, .error e, _, _ => .error (.branchFailure e)
  | _, _, _, .error e, _ => .error (.branchFailure e)
  | _, _, _, _, .error e => .error (.branchFailure e)
  | .ok la, .ok lb, .ok lc, .ok ld, .ok lw =>
    match revision with
    | none => .error .notFound
    | some _ =>
      .ok (formatEntityDiffs la "Author" formatAuthorChange ++
        formatEntityDiffs lb "Edition" formatEditionChange ++
        formatEntityDiffs lc "EditionGroup" formatEditionGroupChange ++
        formatEntityDiffs ld "Publisher" formatPublisherChange ++
        formatEntityDiffs lw "Work" formatWorkChange)

/-- C3: for every revision id whose base revision record does not exist, once
the five per-kind diff resolutions have settled successfully, getRevisionDiff
fails with NotFound and returns no partial diff set (the Except carries no
blocks from any entity kind). -/
theorem getRevisionDiff_base_not_found (la lb lc ld lw : List DiffRow) :
    getRevisionDiff none (.ok la) (.ok lb) (.ok lc) (.ok ld) (.ok lw) =
      .error .notFound := rfl

/-- C5: on an Author, a change at path beginArea carrying the area object and
a change at path beginArea.name carrying the area's name string are both
formatted with label Begin Area and identical rendered values; likewise
endArea and endArea.name with label End Area. -/
theorem formatAuthorChange_area_alias (k : ChangeKind) (o n : String) :
    formatAuthorChange ⟨["beginArea"], k, .named o, .named n⟩ =
      .found (.simple "Begin Area" k (some o) (some n)) ∧
    formatAuthorChange ⟨["beginArea", "name"], k, .str o, .str n⟩ =
      .found (.simple "Begin Area" k (some o) (some n)) ∧
    formatAuthorChange ⟨["endArea"], k, .named o, .named n⟩ =
      .found (.simple "End Area" k (some o) (some n)) ∧
    formatAuthorChange ⟨["endArea", "name"], k, .str o, .str n⟩ =
      .found (.simple "End Area" k (some o) (some n)) :=
  ⟨rfl, rfl, rfl, rfl⟩

/-- C6: for a revision that exists and whose only raw change across all five
entity kinds is an Author endDate modification from 2001-01-01 to 2002-02-02,
getRevisionDiff returns exactly one block, of entityType Author, whose single
formatted change has label End Date, kind modified, and the old and new
scalar values preserved unchanged. -/
theorem getRevisionDiff_single_author_endDate :
    getRevisionDiff (some ⟨42⟩)
      (.ok [⟨[⟨["endDate"], .modified, .str "2001-01-01", .str "2002-02-02"⟩],
        ⟨"author-bbid"⟩⟩])
      (.ok []) (.ok []) (.ok []) (.ok []) =
    .ok [⟨"Author", ⟨"author-bbid"⟩,
      [.simple "End Date" .modified (some "2001-01-01") (some "2002-02-02")]⟩] :=
  rfl

/-- C7: the Edition classifier formats a change at path width, height, depth
or weight as a scalar change labelled with the start-cased field name, and a
change at path pages as a scalar change labelled Page Count. -/
theorem formatEditionChange_dimension_labels (k : ChangeKind) (l r : Val) :
    formatEditionChange ⟨["width"], k, l, r⟩ =
      .found (.simple (startCase "width") k (renderScalar l) (renderScalar r)) ∧
    formatEditionChange ⟨["height"], k, l, r⟩ =
      .found (.simple (startCase "height") k (renderScalar l) (renderScalar r)) ∧
    formatEditionChange ⟨["depth"], k, l, r⟩ =
      .found (.simple (startCase "depth") k (renderScalar l) (renderScalar r)) ∧
    formatEditionChange ⟨["weight"], k, l, r⟩ =
      .found (.simple (startCase "weight") k (renderScalar l) (renderScalar r)) ∧
    startCase "width" = "Width" ∧ startCase "height" = "Height" ∧
    startCase "depth" = "Depth" ∧ startCase "weight" = "Weight" ∧
    formatEditionChange ⟨["pages"], k, l, r⟩ =
      .found (.simple "Page Count" k (renderScalar l) (renderScalar r)) :=
  ⟨rfl, rfl, rfl, rfl, rfl, rfl, rfl, rfl, rfl⟩

/-- C8: the Publisher classifier formats a change at path area, or at its
area.name alias, as an area change rendered with the default label Area. -/
theorem formatPublisherChange_area_default_label (k : ChangeKind)
    (o n : String) :
    formatPublisherChange ⟨["area"], k, .named o, .named n⟩ =
      .found (.simple "Area" k (some o) (some n)) ∧
    formatPublisherChange ⟨["area", "name"], k, .str o, .str n⟩ =
      .found (.simple "Area" k (some o) (some n)) :=
  ⟨rfl, rfl⟩

/-- C9: in the reference behavior, if any one entity-kind diff resolution
fails, the failure propagates: the entire getRevisionDiff call fails and the
caller receives that branch's error (wrapped as branchFailure), not a
best-effort diff set — whichever branch it is and whatever the other inputs
are. -/
theorem getRevisionDiff_branch_failure_propagates (rev : Option Revision)
    (e : String) (p q s t : Except String (List DiffRow))
    (la lb lc ld : List DiffRow) :
    getRevisionDiff rev (.error e) p q s t = .error (.branchFailure e) ∧
    getRevisionDiff rev (.ok la) (.error e) q s t = .error (.branchFailure e) ∧
    getRevisionDiff rev (.ok la) (.ok lb) (.error e) s t =
      .error (.branchFailure e) ∧
    getRevisionDiff rev (.ok la) (.ok lb) (.ok lc) (.error e) t =
      .error (.branchFailure e) ∧
    getRevisionDiff rev (.ok la) (.ok lb) (.ok lc) (.ok ld) (.error e) =
      .error (.branchFailure e) := by
  refine ⟨?_, ?_, ?_, ?_, ?_⟩ <;>
    first
      | rfl
      | (cases p <;> cases q <;> cases s <;> cases t <;> rfl)

/-- C10: the Author classifier formats a change at path type as a type change
labelled Author Type, and the Publisher classifier formats a change at path
type as a type change labelled Publisher Type; both render resolved reference
names and substitute Unknown for unresolvable ones. -/
theorem format_type_labels (k : ChangeKind) (ro rn : Option String) :
    formatAuthorChange ⟨["type"], k, .typeRef ro, .typeRef rn⟩ =
      .found (.simple "Author Type" k (some (ro.getD "Unknown"))
        (some (rn.getD "Unknown"))) ∧
    formatPublisherChange ⟨["type"], k, .typeRef ro, .typeRef rn⟩ =
      .found (.simple "Publisher Type" k (some (ro.getD "Unknown"))
        (some (rn.getD "Unknown"))) :=
  ⟨rfl, rfl⟩

/-- Each diff row yields exactly one block stamped with the given entity
type, so the entity types of the blocks are that type repeated once per
row. -/
lemma formatEntityDiffs_entityTypes (diffs : List DiffRow) (entityType : String)
    (classifier : RawChange → ClassifyResult) :
    (formatEntityDiffs diffs entityType classifier).map EntityDiffBlock.entityType =
      List.replicate diffs.length entityType := by
  simp [formatEntityDiffs, List.map_map, Function.comp_def, List.map_const']

/-- C4: for every existing revision, once the five per-kind diff resolutions
have settled, the assembled diff set concatenates the per-kind blocks in the
fixed kind order Author, Edition, EditionGroup, Publisher, Work: the sequence
of entity types over the result is the five kinds in that order, one per
matching row of each kind. -/
theorem getRevisionDiff_fixed_kind_order (r : Revision)
    (la lb lc ld lw : List DiffRow) :
    ∃ ds, getRevisionDiff (some r) (.ok la) (.ok lb) (.ok lc) (.ok ld) (.ok lw) =
        .ok ds ∧
      ds.map EntityDiffBlock.entityType =
        List.replicate la.length "Author" ++ List.replicate lb.length "Edition" ++
        List.replicate lc.length "EditionGroup" ++
        List.replicate ld.length "Publisher" ++
        List.replicate lw.length "Work" := by
  refine ⟨_, rfl, ?_⟩
  simp [formatEntityDiffs_entityTypes]

/-- A path whose head is not the string s is not the one-segment path made of
s. -/
lemma path_ne_single {p : List String} {s : String} (h : p.head? ≠ some s) :
    p ≠ [s] := by
  rintro rfl; simp at h

/-- A path whose head is not the string s is not a two-segment path starting
with s. -/
lemma path_ne_pair {p : List String} {s t : String} (h : p.head? ≠ some s) :
    p ≠ [s, t] := by
  rintro rfl; simp at h

/-- A path whose head is not the string s fails the set formatters' root
predicate for s. -/
lemma setChanged_eq_false {p : List String} {s : String} (h : p.head? ≠ some s)
    (k : ChangeKind) (l r : Val) : setChanged s ⟨p, k, l, r⟩ = false := by
  simp [setChanged, h]

/-- C1 counterexample: the claim says every classifier returns null on an
unrecognized path, but formatEditionGroupChange on a path outside its
recognized set returns an empty list, a result different from null. -/
theorem formatEditionGroupChange_not_null_counterexample :
    formatEditionGroupChange ⟨["noSuchField"], .modified, .absent, .absent⟩ =
        ClassifyResult.emptyList ∧
      ClassifyResult.emptyList ≠ ClassifyResult.null := by
  exact ⟨rfl, by decide⟩

/-- C1 amended: for every entity kind and every raw change whose path root is
outside that kind's recognized set, the classifier drops the change without
formatting or throwing: the Author, Edition, Publisher and Work classifiers
return null, while the EditionGroup classifier returns an empty list. -/
theorem classifier_unrecognized_root_dropped (kind : EntityKind)
    (c : RawChange) (h : ∀ s ∈ recognizedRoots kind, c.path.head? ≠ some s) :
    classifierOf kind c =
      match kind with
      | .editionGroup => ClassifyResult.emptyList
      | _ => ClassifyResult.null := by
  obtain ⟨p, k, l, r⟩ := c
  cases kind <;> simp only [recognizedRoots, List.mem_cons, List.mem_singleton,
    List.not_mem_nil, forall_eq_or_imp, forall_eq] at h
  case author =>
    obtain ⟨h1, h2, h3, h4, h5, h6, h7, -⟩ := h
    simp [classifierOf, formatAuthorChange, path_ne_single h1, path_ne_single h2,
      path_ne_single h3, path_ne_single h4, path_ne_single h5, path_ne_single h6,
      path_ne_pair h6, path_ne_single h7, path_ne_pair h7]
  case edition =>
    obtain ⟨h1, h2, h3, h4, h5, h6, h7, h8, h9, h10, h11, -⟩ := h
    simp [classifierOf, formatEditionChange, publisherSetFormatter.changed,
      releaseEventSetFormatter.changed, languageSetFormatter.changed,
      path_ne_single h1, setChanged_eq_false h2, setChanged_eq_false h3,
      setChanged_eq_false h4, path_ne_single h5, path_ne_single h6,
      path_ne_single h7, path_ne_single h8, path_ne_single h9,
      path_ne_single h10, path_ne_single h11]
  case editionGroup =>
    obtain ⟨h1, -⟩ := h
    simp [classifierOf, formatEditionGroupChange, path_ne_single h1]
  case publisher =>
    obtain ⟨h1, h2, h3, h4, h5, -⟩ := h
    simp [classifierOf, formatPublisherChange, path_ne_single h1,
      path_ne_single h2, path_ne_single h3, path_ne_single h4,
      path_ne_single h5, path_ne_pair h5]
  case work =>
    obtain ⟨h1, h2, -⟩ := h
    simp [classifierOf, formatWorkChange, languageSetFormatter.changed,
      setChanged_eq_false h1, path_ne_single h2]

/-- C1 witness: the Author classifier drops a concrete bookkeeping path
outside its recognized set, returning null. -/
theorem classifier_unrecognized_root_dropped_witness :
    classifierOf .author ⟨["revisionId"], .modified, .absent, .absent⟩ =
      ClassifyResult.null :=
  classifier_unrecognized_root_dropped .author
    ⟨["revisionId"], .modified, .absent, .absent⟩ (by decide)

/-- C2 counterexample: the claim says classification depends only on the
first path segment, but the Author classifier formats the path beginDate
while returning null for a longer path with the same first segment. -/
theorem first_segment_equivalence_counterexample :
    (["beginDate"] : List String).head? =
        (["beginDate", "extra"] : List String).head? ∧
      formatAuthorChange ⟨["beginDate"], .modified, .str "1900", .str "1901"⟩ ≠
        formatAuthorChange
          ⟨["beginDate", "extra"], .modified, .str "1900", .str "1901"⟩ := by
  exact ⟨rfl, by decide⟩

/-- C2 amended: first-segment equivalence holds for the compound fields
rather than for all fields. The area fields classify the bare path and its
name sub-path identically (Author beginArea and endArea, Publisher area),
and the set-valued fields classify a path by its first segment alone,
whatever the trailing segments (Edition publisherSet, releaseEventSet and
languageSet, Work languageSet); for the other fields the equivalence fails,
as the counterexample shows. -/
theorem compound_field_first_segment_equivalence (k : ChangeKind) (l r : Val)
    (rest : List String) :
    formatAuthorChange ⟨["beginArea"], k, l, r⟩ =
      formatAuthorChange ⟨["beginArea", "name"], k, l, r⟩ ∧
    formatAuthorChange ⟨["endArea"], k, l, r⟩ =
      formatAuthorChange ⟨["endArea", "name"], k, l, r⟩ ∧
    formatPublisherChange ⟨["area"], k, l, r⟩ =
      formatPublisherChange ⟨["area", "name"], k, l, r⟩ ∧
    formatEditionChange ⟨"publisherSet" :: rest, k, l, r⟩ =
      formatEditionChange ⟨["publisherSet"], k, l, r⟩ ∧
    formatEditionChange ⟨"releaseEventSet" :: rest, k, l, r⟩ =
      formatEditionChange ⟨["releaseEventSet"], k, l, r⟩ ∧
    formatEditionChange ⟨"languageSet" :: rest, k, l, r⟩ =
      formatEditionChange ⟨["languageSet"], k, l, r⟩ ∧
    formatWorkChange ⟨"languageSet" :: rest, k, l, r⟩ =
      formatWorkChange ⟨["languageSet"], k, l, r⟩ := by
  refine ⟨rfl, rfl, rfl, ?_, ?_, ?_, ?_⟩ <;>
    simp [formatEditionChange, formatWorkChange, publisherSetFormatter.changed,
      releaseEventSetFormatter.changed, languageSetFormatter.changed,
      publisherSetFormatter.format, releaseEventSetFormatter.format,
      languageSetFormatter.format, setChanged, formatSetChange]

end BookBrainz
